import Mathlib

/-!
Verification of the fallback widget theme rendering engine
(`ui/base/native_theme/native_theme_android.cc`).

The C++ code is shallowly embedded as follows:

* Scalar color arithmetic (`SkScalar`, C `double`/`float`) is modelled by `ℚ`.
* Pixel coordinates (C `int`) are modelled by `Int`; C integer division
  (truncation toward zero) is `Int.tdiv`, and `static_cast<int>` of a scalar
  is truncation toward zero of a rational (`static_cast_int`).
* A paint routine is a pure function from its arguments to the list of
  drawing operations it issues on the canvas, in order (`DrawOp`).
* Colors that the code produces through external conversions
  (`SkColorToHSL` / `SkHSVToColor`, which live in Skia, outside this
  repository) are kept symbolic: a `SkColorV` value records exactly which
  conversion chain the code requested.  The HSV-triple arithmetic that the
  repository itself implements (`SaturateAndBrighten`, `OutlineColor`,
  `Clamp`) is embedded directly on triples of rationals.
* Bitmap assets come from the external resource bundle; their pixel sizes
  are a parameter `dims : ImageId → Int × Int` of the image-drawing
  routines.
-/

namespace ui

/-- C integer division: truncation toward zero, as used by `rect.width() / 2`
and friends in the source. -/
def cppDiv (a b : Int) : Int := Int.tdiv a b

/-- C `static_cast<int>` applied to a floating point value: truncation toward
zero, modelled on rationals. -/
def static_cast_int (q : ℚ) : Int := Int.tdiv q.num q.den

/-- Clamp from the source (`NativeThemeAndroid::Clamp`):
`std::min(std::max(value, min), max)`. -/
def Clamp (value mn mx : ℚ) : ℚ := min (max value mn) mx

/-- An HSV triple, the `SkScalar hsv[3]` arrays of the source. The source
stores hue in component 0, saturation in component 1, value in component 2. -/
structure HSV where
  h : ℚ
  s : ℚ
  v : ℚ
  deriving DecidableEq

/-- Valid HSV triple in the sense of the claims: every component in [0,1]. -/
def HSV.Valid (c : HSV) : Prop :=
  0 ≤ c.h ∧ c.h ≤ 1 ∧ 0 ≤ c.s ∧ c.s ≤ 1 ∧ 0 ≤ c.v ∧ c.v ≤ 1

/-- Triple-level embedding of `NativeThemeAndroid::SaturateAndBrighten`
(lines 685–694).  The source builds the adjusted `SkScalar color[3]` and
immediately converts it with the external `SkHSVToColor`; this definition is
that adjusted triple. -/
def SaturateAndBrighten (hsv : HSV) (saturate_amount brighten_amount : ℚ) : HSV :=
  { h := hsv.h
    s := Clamp (hsv.s + saturate_amount) 0 1
    v := Clamp (hsv.v + brighten_amount) 0 1 }

/-- Triple-level embedding of `NativeThemeAndroid::OutlineColor`
(lines 733–741).  `hsv1` is the background triple, `hsv2` the foreground
triple, exactly as the parameters of the source. -/
def OutlineColor (hsv1 hsv2 : HSV) : HSV :=
  let min_diff := Clamp ((hsv1.s + hsv2.s) * (12/10)) (28/100) (1/2)
  let diff0 := Clamp (|hsv1.v - hsv2.v| / 2) min_diff (1/2)
  let diff := if 1 < hsv1.v + hsv2.v then -diff0 else diff0
  SaturateAndBrighten hsv2 (-(2/10)) diff

/-- Spec-side definition, following the words of the spec for `OutlineColor`:
`minDiff = clamp((sat_bg + sat_fg) × 1.2, 0.28, 0.5)`. -/
def specMinDiff (hsv_background hsv_foreground : HSV) : ℚ :=
  Clamp ((hsv_background.s + hsv_foreground.s) * (12/10)) (28/100) (1/2)

/-- Spec-side definition: `diff = clamp(|val_bg − val_fg| / 2, minDiff, 0.5)`,
negated if and only if `val_bg + val_fg > 1.0`. -/
def specAdjustment (hsv_background hsv_foreground : HSV) : ℚ :=
  let d := Clamp (|hsv_background.v - hsv_foreground.v| / 2)
      (specMinDiff hsv_background hsv_foreground) (1/2)
  if 1 < hsv_background.v + hsv_foreground.v then -d else d

/-- Spec-side definition: the result of `OutlineColor` as the spec words it,
`SaturateAndBrighten(hsv_foreground, −0.2, diff)`. -/
def specOutlineColor (hsv_background hsv_foreground : HSV) : HSV :=
  SaturateAndBrighten hsv_foreground (-(2/10))
    (specAdjustment hsv_background hsv_foreground)

/-- Widget part enumeration (the cases of the `Part` switch). Constructor
names keep the source's enumerator names. -/
inductive Part where
  | kScrollbarDownArrow
  | kScrollbarLeftArrow
  | kScrollbarRightArrow
  | kScrollbarUpArrow
  | kCheckbox
  | kRadio
  | kPushButton
  | kTextField
  | kMenuList
  | kSliderTrack
  | kSliderThumb
  | kInnerSpinButton
  | kProgressBar
  deriving DecidableEq

export Part (kScrollbarDownArrow kScrollbarLeftArrow kScrollbarRightArrow
  kScrollbarUpArrow kCheckbox kRadio kPushButton kTextField kMenuList
  kSliderTrack kSliderThumb kInnerSpinButton kProgressBar)

/-- Interaction state enumeration. -/
inductive State where
  | kDisabled
  | kHovered
  | kNormal
  | kPressed
  deriving DecidableEq

export State (kDisabled kHovered kNormal kPressed)

/-- Destination rectangle (`gfx::Rect`), device pixel units. -/
structure Rect where
  x : Int
  y : Int
  width : Int
  height : Int
  deriving DecidableEq

/-- gfx::Rect::right(): x + width. -/
def Rect.right (r : Rect) : Int := r.x + r.width

/-- gfx::Rect::bottom(): y + height. -/
def Rect.bottom (r : Rect) : Int := r.y + r.height

/-- A size (`gfx::Size`). -/
structure Size where
  width : Int
  height : Int
  deriving DecidableEq

/-- Modelled from the spec: `gfx::Rect::Center(size)` (the implementation
lives in `ui/gfx/rect.cc`, outside this excerpt) — "center the asset at its
natural size within the destination rect (no scaling)". -/
def Rect.Center (r : Rect) (size : Size) : Rect :=
  { x := r.x + cppDiv (r.width - size.width) 2
    y := r.y + cppDiv (r.height - size.height) 2
    width := size.width
    height := size.height }

/-- Extra parameters for checkbox / radio / push button parts. -/
structure ButtonExtraParams where
  background_color : Nat
  has_border : Bool
  checked : Bool
  indeterminate : Bool
  deriving DecidableEq

/-- Extra parameters for the text field part. -/
structure TextFieldExtraParams where
  background_color : Nat
  is_text_area : Bool
  is_listbox : Bool
  deriving DecidableEq

/-- Extra parameters for the menu list part. -/
structure MenuListExtraParams where
  has_border : Bool
  has_border_radius : Bool
  arrow_x : Int
  arrow_y : Int
  background_color : Nat
  deriving DecidableEq

/-- Extra parameters for slider track / thumb parts. -/
structure SliderExtraParams where
  vertical : Bool
  in_drag : Bool
  deriving DecidableEq

/-- Extra parameters for the inner spin button part. -/
structure InnerSpinButtonExtraParams where
  read_only : Bool
  spin_up : Bool
  deriving DecidableEq

/-- Extra parameters for the progress bar part. -/
structure ProgressBarExtraParams where
  value_rect_x : Int
  value_rect_y : Int
  value_rect_width : Int
  value_rect_height : Int
  deriving DecidableEq

/-- The tagged union `NativeTheme::ExtraParams`; the tag must match the part
passed to `Paint` (union-field access with a mismatched tag is a caller
contract violation, modelled as `none` in the dispatcher). -/
inductive ExtraParams where
  | button (b : ButtonExtraParams)
  | text_field (t : TextFieldExtraParams)
  | menu_list (m : MenuListExtraParams)
  | slider (s : SliderExtraParams)
  | inner_spin (i : InnerSpinButtonExtraParams)
  | progress_bar (p : ProgressBarExtraParams)
  deriving DecidableEq

/-- Identifiers of the bitmap assets fetched from the resource bundle;
constructor names keep the source's `IDR_` resource names. -/
inductive ImageId where
  | IDR_CHECKBOX_DISABLED_INDETERMINATE
  | IDR_CHECKBOX_INDETERMINATE
  | IDR_CHECKBOX_DISABLED_ON
  | IDR_CHECKBOX_ON
  | IDR_CHECKBOX_DISABLED_OFF
  | IDR_CHECKBOX_OFF
  | IDR_RADIO_DISABLED_ON
  | IDR_RADIO_ON
  | IDR_RADIO_DISABLED_OFF
  | IDR_RADIO_OFF
  | IDR_PROGRESS_BAR
  | IDR_PROGRESS_BORDER_LEFT
  | IDR_PROGRESS_BORDER_RIGHT
  | IDR_PROGRESS_VALUE
  deriving DecidableEq

/-- SkColorSetRGB: opaque packed ARGB value. -/
def SkColorSetRGB (r g b : Nat) : Nat := 0xFF000000 + r * 0x10000 + g * 0x100 + b

/-- SK_ColorBLACK. -/
def SK_ColorBLACK : Nat := 0xFF000000

/-- SK_ColorWHITE. -/
def SK_ColorWHITE : Nat := 0xFFFFFFFF

/-- SkColorGetA: the alpha byte of a packed ARGB color. -/
def SkColorGetA (c : Nat) : Nat := c / 0x1000000 % 0x100

/-- Constants from the top of the source file. -/
def kButtonLength : Int := 14

/-- Scrollbar width constant. -/
def kScrollbarWidth : Int := 15

/-- Default width of radio buttons and checkboxes. -/
def kCheckboxAndRadioWidth : Int := 13

/-- Default height of radio buttons and checkboxes. -/
def kCheckboxAndRadioHeight : Int := 13

/-- Slider thumb default width (matches Chromium Win). -/
def kSliderThumbWidth : Int := 11

/-- Slider thumb default height (matches Chromium Win). -/
def kSliderThumbHeight : Int := 21

/-- Slider track background color. -/
def kSliderTrackBackgroundColor : Nat := SkColorSetRGB 0xe3 0xdd 0xd8

/-- Slider thumb light grey. -/
def kSliderThumbLightGrey : Nat := SkColorSetRGB 0xf4 0xf2 0xef

/-- Slider thumb dark grey. -/
def kSliderThumbDarkGrey : Nat := SkColorSetRGB 0xea 0xe5 0xe0

/-- Slider thumb border dark grey. -/
def kSliderThumbBorderDarkGrey : Nat := SkColorSetRGB 0x9d 0x96 0x8e

/-- A paint color as the code sets it on an `SkPaint`.  Colors that go
through conversions implemented outside this repository are kept symbolic:
`brightenColor base alpha amount` stands for
`BrightenColor(SkColorToHSL(base), alpha, amount)` (the HSL round-trip is
external Skia/gfx code). -/
inductive SkColorV where
  | sk (c : Nat)
  | argb (a r g b : Nat)
  | brightenColor (base : Nat) (alpha : Nat) (amount : ℚ)
  deriving DecidableEq

/-- Paint style (`SkPaint::kFill_Style` / `SkPaint::kStroke_Style`). -/
inductive PaintStyle where
  | fill
  | stroke
  deriving DecidableEq

/-- One primitive drawing operation issued on the canvas.  The constructor
`paintArrowButton` records a call of the arrow-button routine
(`NativeThemeAndroid::PaintArrowButton`) with its arguments; the claims under
verification only constrain which arguments that routine receives, so its
body (pure Skia path construction) is not expanded further. -/
inductive DrawOp where
  | drawIRect (l t r b : Int) (color : SkColorV)
  | drawRect (l t r b : Int) (color : SkColorV) (style : PaintStyle)
  | drawLine (x0 y0 x1 y1 : Int) (color : SkColorV)
  | drawPoint (x y : Int) (color : SkColorV)
  | drawPath (points : List (Int × Int)) (color : SkColorV) (style : PaintStyle)
  | drawGradientRect (l t r b : Int) (p0 p1 : Int × Int) (c0 c1 : SkColorV)
  | drawImage (img : ImageId) (srcX srcY srcW srcH destX destY destW destH : Int)
  | drawTiledImage (img : ImageId) (srcX srcY : Int) (tileScaleX tileScaleY : ℚ)
      (destX destY w h : Int)
  | paintArrowButton (r : Rect) (direction : Part) (st : State)
  deriving DecidableEq

/-- DrawHorizLine (source lines 712–720): a 1px horizontal line drawn as an
`SkIRect` whose end coordinate is inclusive. -/
def DrawHorizLine (x1 x2 y : Int) (color : SkColorV) : DrawOp :=
  .drawIRect x1 y (x2 + 1) (y + 1) color

/-- DrawVertLine (source lines 702–710): a 1px vertical line drawn as an
`SkIRect` whose end coordinate is inclusive. -/
def DrawVertLine (x y1 y2 : Int) (color : SkColorV) : DrawOp :=
  .drawIRect x y1 (x + 1) (y2 + 1) color

/-- DrawBox (source lines 722–731): a 4-segment box outline built from the
line primitives. -/
def DrawBox (rect : Rect) (color : SkColorV) : List DrawOp :=
  let right := rect.x + rect.width - 1
  let bottom := rect.y + rect.height - 1
  [DrawHorizLine rect.x right rect.y color,
   DrawVertLine right rect.y bottom color,
   DrawHorizLine rect.x right bottom color,
   DrawVertLine rect.x rect.y bottom color]

/-- GetPartSize (source lines 64–92): fixed intrinsic sizes per part; parts
without a default size yield the empty `gfx::Size()`. -/
def GetPartSize (part : Part) (_state : State) (_extra : ExtraParams) : Size :=
  match part with
  | kScrollbarDownArrow => { width := kScrollbarWidth, height := kButtonLength }
  | kScrollbarUpArrow => { width := kScrollbarWidth, height := kButtonLength }
  | kScrollbarLeftArrow => { width := kButtonLength, height := kScrollbarWidth }
  | kScrollbarRightArrow => { width := kButtonLength, height := kScrollbarWidth }
  | kCheckbox => { width := kCheckboxAndRadioWidth, height := kCheckboxAndRadioHeight }
  | kRadio => { width := kCheckboxAndRadioWidth, height := kCheckboxAndRadioHeight }
  | kSliderThumb => { width := kSliderThumbWidth, height := kSliderThumbHeight }
  | kInnerSpinButton => { width := kScrollbarWidth, height := 0 }
  | kPushButton => { width := 0, height := 0 }
  | kTextField => { width := 0, height := 0 }
  | kMenuList => { width := 0, height := 0 }
  | kSliderTrack => { width := 0, height := 0 }
  | kProgressBar => { width := 0, height := 0 }

/-- PaintArrowButton (source lines 149–275), modelled as a single routine
invocation operation carrying its exact arguments.  The body of the routine
paints with colors produced by external Skia HSV conversions and hand-tuned
glyph paths; no claim under verification constrains anything but the
arguments the routine is invoked with. -/
def PaintArrowButton (rect : Rect) (direction : Part) (state : State) : List DrawOp :=
  [.paintArrowButton rect direction state]

/-- Image selected by PaintCheckbox (source lines 283–295): keyed first on
`indeterminate`, then `checked`, then on whether the state is disabled. -/
def checkboxImage (state : State) (button : ButtonExtraParams) : ImageId :=
  if button.indeterminate then
    if state = kDisabled then .IDR_CHECKBOX_DISABLED_INDETERMINATE
    else .IDR_CHECKBOX_INDETERMINATE
  else if button.checked then
    if state = kDisabled then .IDR_CHECKBOX_DISABLED_ON else .IDR_CHECKBOX_ON
  else
    if state = kDisabled then .IDR_CHECKBOX_DISABLED_OFF else .IDR_CHECKBOX_OFF

/-- PaintCheckbox (source lines 277–300): select the asset, center it in the
destination rect, and blit it at its natural size.  `dims` supplies the pixel
sizes of the external bitmap assets. -/
def PaintCheckbox (dims : ImageId → Int × Int) (state : State) (rect : Rect)
    (button : ButtonExtraParams) : List DrawOp :=
  let image := checkboxImage state button
  let w := (dims image).1
  let h := (dims image).2
  let bounds := rect.Center { width := w, height := h }
  [.drawImage image 0 0 w h bounds.x bounds.y bounds.width bounds.height]

/-- Image selected by PaintRadio (source lines 308–316): keyed on disabled
state, then `checked`. -/
def radioImage (state : State) (button : ButtonExtraParams) : ImageId :=
  if state = kDisabled then
    if button.checked then .IDR_RADIO_DISABLED_ON else .IDR_RADIO_DISABLED_OFF
  else
    if button.checked then .IDR_RADIO_ON else .IDR_RADIO_OFF

/-- PaintRadio (source lines 302–321): select the asset, center it in the
destination rect, and blit it at its natural size. -/
def PaintRadio (dims : ImageId → Int × Int) (state : State) (rect : Rect)
    (button : ButtonExtraParams) : List DrawOp :=
  let image := radioImage state button
  let w := (dims image).1
  let h := (dims image).2
  let bounds := rect.Center { width := w, height := h }
  [.drawImage image 0 0 w h bounds.x bounds.y bounds.width bounds.height]

/-- PaintButton (source lines 323–388).  `light_color` is
`BrightenColor(base_hsl, SkColorGetA(base_color), 0.105)`, recorded
symbolically.  A rect smaller than 5px in either dimension falls back to a
single flat fill and returns; otherwise an optional 1px border, a 2-stop
vertical linear gradient (stop order swapped when Pressed), and, when a
border is drawn, four corner highlight points. -/
def PaintButton (state : State) (rect : Rect) (button : ButtonExtraParams) :
    List DrawOp :=
  let kRight := rect.right
  let kBottom := rect.bottom
  let base_color := button.background_color
  let light_color := SkColorV.brightenColor base_color (SkColorGetA base_color) (105/1000)
  if rect.width < 5 ∨ rect.height < 5 then
    [.drawRect rect.x rect.y kRight kBottom (.sk base_color) .fill]
  else
    (if button.has_border then
      let kBorderAlpha : Nat := if state = kHovered then 0x80 else 0x55
      [.drawLine (rect.x + 1) rect.y (kRight - 1) rect.y (.argb kBorderAlpha 0 0 0),
       .drawLine (kRight - 1) (rect.y + 1) (kRight - 1) (kBottom - 1) (.argb kBorderAlpha 0 0 0),
       .drawLine (rect.x + 1) (kBottom - 1) (kRight - 1) (kBottom - 1) (.argb kBorderAlpha 0 0 0),
       .drawLine rect.x (rect.y + 1) rect.x (kBottom - 1) (.argb kBorderAlpha 0 0 0)]
     else []) ++
    (let gb0 := if state = kPressed then (rect.x, kBottom - 1) else (rect.x, rect.y)
     let gb1 := if state = kPressed then (rect.x, rect.y) else (rect.x, kBottom - 1)
     if button.has_border then
       [.drawGradientRect (rect.x + 1) (rect.y + 1) (kRight - 1) (kBottom - 1)
          gb0 gb1 light_color (.sk base_color)]
     else
       [.drawGradientRect rect.x rect.y kRight kBottom gb0 gb1 light_color (.sk base_color)]) ++
    (if button.has_border then
      let c := SkColorV.brightenColor base_color (SkColorGetA base_color) (-(588/10000))
      [.drawPoint (rect.x + 1) (rect.y + 1) c,
       .drawPoint (kRight - 2) (rect.y + 1) c,
       .drawPoint (rect.x + 1) (kBottom - 2) c,
       .drawPoint (kRight - 2) (kBottom - 2) c]
     else [])

/-- PaintTextField (source lines 390–479): background fill, then either a 1px
solid black stroke (text area) or the four trapezoidal bevel quads (text
input / listbox). -/
def PaintTextField (_state : State) (rect : Rect) (text : TextFieldExtraParams) :
    List DrawOp :=
  let bounds_fill := DrawOp.drawRect rect.x rect.y (rect.right - 1) (rect.bottom - 1)
      (.sk text.background_color) .fill
  if text.is_text_area then
    [bounds_fill,
     .drawRect rect.x rect.y (rect.right - 1) (rect.bottom - 1) (.sk SK_ColorBLACK) .stroke]
  else
    let kLightColor := if text.is_listbox then SkColorSetRGB 0x80 0x80 0x80
        else SkColorSetRGB 0xee 0xee 0xee
    let kDarkColor := if text.is_listbox then SkColorSetRGB 0x2c 0x2c 0x2c
        else SkColorSetRGB 0x9a 0x9a 0x9a
    let kBorderWidth : Int := if text.is_listbox then 1 else 2
    let left := rect.x
    let top := rect.y
    let right := rect.right
    let bottom := rect.bottom
    [bounds_fill,
     .drawPath [(left, top), (left + kBorderWidth, top + kBorderWidth),
       (right - kBorderWidth, top + kBorderWidth), (right, top)] (.sk kDarkColor) .fill,
     .drawPath [(left + kBorderWidth, bottom - kBorderWidth), (left, bottom),
       (right, bottom), (right - kBorderWidth, bottom - kBorderWidth)] (.sk kLightColor) .fill,
     .drawPath [(left, top), (left, bottom), (left + kBorderWidth, bottom - kBorderWidth),
       (left + kBorderWidth, top + kBorderWidth)] (.sk kDarkColor) .fill,
     .drawPath [(right - kBorderWidth, top + kBorderWidth), (right - kBorderWidth, bottom),
       (right, bottom), (right, top)] (.sk kLightColor) .fill]

/-- PaintMenuList (source lines 481–506): unless the caller paints its own
rounded border, first paint push-button chrome with a synthesized
`ButtonExtraParams`; then the fixed downward triangular glyph at
`(arrow_x, arrow_y)`. -/
def PaintMenuList (state : State) (rect : Rect) (menu_list : MenuListExtraParams) :
    List DrawOp :=
  (if menu_list.has_border_radius then []
   else PaintButton state rect
     { background_color := menu_list.background_color
       has_border := menu_list.has_border
       checked := false
       indeterminate := false }) ++
  [.drawPath [(menu_list.arrow_x, menu_list.arrow_y - 3),
    (menu_list.arrow_x + 6, menu_list.arrow_y - 3),
    (menu_list.arrow_x + 3, menu_list.arrow_y + 3)] (.sk SK_ColorBLACK) .fill]

/-- PaintSliderTrack (source lines 508–532): a 4px band along the long axis
through the rect midline, clamped to the rect bounds. -/
def PaintSliderTrack (_state : State) (rect : Rect) (slider : SliderExtraParams) :
    List DrawOp :=
  let kMidX := rect.x + cppDiv rect.width 2
  let kMidY := rect.y + cppDiv rect.height 2
  if slider.vertical then
    [.drawRect (max rect.x (kMidX - 2)) rect.y (min rect.right (kMidX + 2)) rect.bottom
      (.sk kSliderTrackBackgroundColor) .fill]
  else
    [.drawRect rect.x (max rect.y (kMidY - 2)) rect.right (min rect.bottom (kMidY + 2))
      (.sk kSliderTrackBackgroundColor) .fill]

/-- PaintSliderThumb (source lines 534–571): two half fills whose grey
assignment depends on hover-or-drag, a border box, and — only when the rect
is strictly larger than 10px in both dimensions — three decorative
horizontal ticks around the midpoint. -/
def PaintSliderThumb (state : State) (rect : Rect) (slider : SliderExtraParams) :
    List DrawOp :=
  let hovered : Bool := state == kHovered || slider.in_drag
  let kMidX := rect.x + cppDiv rect.width 2
  let kMidY := rect.y + cppDiv rect.height 2
  let borderPaint := SkColorV.sk kSliderThumbBorderDarkGrey
  let fill1 : DrawOp :=
    if slider.vertical then
      .drawIRect rect.x rect.y (kMidX + 1) rect.bottom
        (.sk (if hovered then SK_ColorWHITE else kSliderThumbLightGrey))
    else
      .drawIRect rect.x rect.y rect.right (kMidY + 1)
        (.sk (if hovered then SK_ColorWHITE else kSliderThumbLightGrey))
  let fill2 : DrawOp :=
    if slider.vertical then
      .drawIRect (kMidX + 1) rect.y rect.right rect.bottom
        (.sk (if hovered then kSliderThumbLightGrey else kSliderThumbDarkGrey))
    else
      .drawIRect rect.x (kMidY + 1) rect.right rect.bottom
        (.sk (if hovered then kSliderThumbLightGrey else kSliderThumbDarkGrey))
  [fill1, fill2] ++ DrawBox rect borderPaint ++
  (if 10 < rect.height ∧ 10 < rect.width then
    [DrawHorizLine (kMidX - 2) (kMidX + 2) kMidY borderPaint,
     DrawHorizLine (kMidX - 2) (kMidX + 2) (kMidY - 3) borderPaint,
     DrawHorizLine (kMidX - 2) (kMidX + 2) (kMidY + 3) borderPaint]
   else [])

/-- PaintInnerSpinButton (source lines 573–594): resolve the per-half states,
then invoke the arrow-button routine on the top half (up arrow) and the
bottom half (down arrow). -/
def PaintInnerSpinButton (state : State) (rect : Rect)
    (spin_button : InnerSpinButtonExtraParams) : List DrawOp :=
  let state1 := if spin_button.read_only then kDisabled else state
  let north_state :=
    if spin_button.spin_up then state1
    else if state1 ≠ kDisabled then kNormal else kDisabled
  let south_state :=
    if spin_button.spin_up then (if state1 ≠ kDisabled then kNormal else kDisabled)
    else state1
  let half := { rect with height := cppDiv rect.height 2 }
  let half2 := { half with y := rect.y + cppDiv rect.height 2 }
  PaintArrowButton half kScrollbarUpArrow north_state ++
  PaintArrowButton half2 kScrollbarDownArrow south_state

/-- PaintProgressBar (source lines 596–644): tile the background bar image at
the uniform scale `rect.height / bar_image.height`; when the value width is
non-zero, tile the value image at the same vertical scale; always draw the
left and right border-cap images at that scale, flush with the rect edges. -/
def PaintProgressBar (dims : ImageId → Int × Int) (_state : State) (rect : Rect)
    (progress_bar : ProgressBarExtraParams) : List DrawOp :=
  let bar_w := (dims .IDR_PROGRESS_BAR).1
  let bar_h := (dims .IDR_PROGRESS_BAR).2
  let tile_scale : ℚ := (rect.height : ℚ) / (bar_h : ℚ)
  let new_tile_width := static_cast_int ((bar_w : ℚ) * tile_scale)
  let tile_scale_x : ℚ := (new_tile_width : ℚ) / (bar_w : ℚ)
  [.drawTiledImage .IDR_PROGRESS_BAR 0 0 tile_scale_x tile_scale
    rect.x rect.y rect.width rect.height] ++
  (if progress_bar.value_rect_width ≠ 0 then
    let value_w := (dims .IDR_PROGRESS_VALUE).1
    let ntw := static_cast_int ((value_w : ℚ) * tile_scale)
    let tsx : ℚ := (ntw : ℚ) / (value_w : ℚ)
    [.drawTiledImage .IDR_PROGRESS_VALUE 0 0 tsx tile_scale
      progress_bar.value_rect_x progress_bar.value_rect_y
      progress_bar.value_rect_width progress_bar.value_rect_height]
   else []) ++
  (let lw := (dims .IDR_PROGRESS_BORDER_LEFT).1
   let lh := (dims .IDR_PROGRESS_BORDER_LEFT).2
   let dest_left_border_width := static_cast_int ((lw : ℚ) * tile_scale)
   [.drawImage .IDR_PROGRESS_BORDER_LEFT 0 0 lw lh
     rect.x rect.y dest_left_border_width rect.height]) ++
  (let rw := (dims .IDR_PROGRESS_BORDER_RIGHT).1
   let rh := (dims .IDR_PROGRESS_BORDER_RIGHT).2
   let dest_right_border_width := static_cast_int ((rw : ℚ) * tile_scale)
   [.drawImage .IDR_PROGRESS_BORDER_RIGHT 0 0 rw rh
     (rect.right - dest_right_border_width) rect.y dest_right_border_width rect.height])

/-- GetSystemColor (source lines 138–141): an explicit stub
(`NOTIMPLEMENTED()`), always returning the fixed fallback `SK_ColorBLACK`.
The `ColorId` enumeration lives in the base `NativeTheme` interface outside
this excerpt; it is modelled as an opaque index. -/
def ColorId : Type := Nat

/-- GetSystemColor returns the fixed fallback color for every color id. -/
def GetSystemColor (_color_id : ColorId) : Nat := SK_ColorBLACK

/-- Paint (source lines 94–136): the part dispatch table.  Union-field access
with a tag that does not match the part is a caller contract violation and
yields `none`; every legal combination dispatches to the per-part routine. -/
def Paint (dims : ImageId → Int × Int) (part : Part) (state : State) (rect : Rect)
    (extra : ExtraParams) : Option (List DrawOp) :=
  match part, extra with
  | kScrollbarDownArrow, _ => some (PaintArrowButton rect kScrollbarDownArrow state)
  | kScrollbarUpArrow, _ => some (PaintArrowButton rect kScrollbarUpArrow state)
  | kScrollbarLeftArrow, _ => some (PaintArrowButton rect kScrollbarLeftArrow state)
  | kScrollbarRightArrow, _ => some (PaintArrowButton rect kScrollbarRightArrow state)
  | kCheckbox, .button b => some (PaintCheckbox dims state rect b)
  | kRadio, .button b => some (PaintRadio dims state rect b)
  | kPushButton, .button b => some (PaintButton state rect b)
  | kTextField, .text_field t => some (PaintTextField state rect t)
  | kMenuList, .menu_list m => some (PaintMenuList state rect m)
  | kSliderTrack, .slider s => some (PaintSliderTrack state rect s)
  | kSliderThumb, .slider s => some (PaintSliderThumb state rect s)
  | kInnerSpinButton, .inner_spin i => some (PaintInnerSpinButton state rect i)
  | kProgressBar, .progress_bar p => some (PaintProgressBar dims state rect p)
  | _, _ => none


/-- Predicate singling out the gradient-construction operation of
`PaintButton`. -/
def isGradientOp : DrawOp → Bool
  | .drawGradientRect _ _ _ _ _ _ _ _ => true
  | _ => false

/-- Image referenced by a drawing operation, if any. -/
def opImage : DrawOp → Option ImageId
  | .drawImage img _ _ _ _ _ _ _ _ => some img
  | .drawTiledImage img _ _ _ _ _ _ _ _ => some img
  | _ => none

/-- Spec-side (amended C1): resolved state of the top (up-arrow) half of the
inner spin button.  When `read_only` it is Disabled; otherwise, when
`spin_up` is set the top half keeps the incoming state, and when `spin_up`
is clear the top half is the one normalised to Normal (Disabled stays
Disabled). -/
def resolvedNorthState (state : State) (sb : InnerSpinButtonExtraParams) : State :=
  if sb.read_only then kDisabled
  else if sb.spin_up then state
  else if state = kDisabled then kDisabled else kNormal

/-- Spec-side (amended C1): resolved state of the bottom (down-arrow) half of
the inner spin button, symmetric to `resolvedNorthState`. -/
def resolvedSouthState (state : State) (sb : InnerSpinButtonExtraParams) : State :=
  if sb.read_only then kDisabled
  else if sb.spin_up then (if state = kDisabled then kDisabled else kNormal)
  else state

/-- Spec-side: trapezoidal quad of the top edge, connecting the two outer
corners of the edge to its two inner inset corners. -/
def edgeQuadTop (rect : Rect) (w : Int) : List (Int × Int) :=
  [(rect.x, rect.y), (rect.x + w, rect.y + w),
   (rect.right - w, rect.y + w), (rect.right, rect.y)]

/-- Spec-side: trapezoidal quad of the bottom edge. -/
def edgeQuadBottom (rect : Rect) (w : Int) : List (Int × Int) :=
  [(rect.x + w, rect.bottom - w), (rect.x, rect.bottom),
   (rect.right, rect.bottom), (rect.right - w, rect.bottom - w)]

/-- Spec-side: trapezoidal quad of the left edge. -/
def edgeQuadLeft (rect : Rect) (w : Int) : List (Int × Int) :=
  [(rect.x, rect.y), (rect.x, rect.bottom),
   (rect.x + w, rect.bottom - w), (rect.x + w, rect.y + w)]

/-- Spec-side: trapezoidal quad of the right edge. -/
def edgeQuadRight (rect : Rect) (w : Int) : List (Int × Int) :=
  [(rect.right - w, rect.y + w), (rect.right - w, rect.bottom),
   (rect.right, rect.bottom), (rect.right, rect.y)]

/-- Spec-side: the three decorative horizontal tick operations of the slider
thumb, centered on the rect midpoint, in the order the source draws them. -/
def sliderThumbTicks (rect : Rect) : List DrawOp :=
  let kMidX := rect.x + cppDiv rect.width 2
  let kMidY := rect.y + cppDiv rect.height 2
  [DrawHorizLine (kMidX - 2) (kMidX + 2) kMidY (.sk kSliderThumbBorderDarkGrey),
   DrawHorizLine (kMidX - 2) (kMidX + 2) (kMidY - 3) (.sk kSliderThumbBorderDarkGrey),
   DrawHorizLine (kMidX - 2) (kMidX + 2) (kMidY + 3) (.sk kSliderThumbBorderDarkGrey)]

/-- C8: `GetSystemColor` never fails and returns the same single fixed
fallback color (`SK_ColorBLACK`) for every color id — it is total and
constant over all color ids. -/
theorem GetSystemColor_constant_fallback :
    ∀ a b : ColorId, GetSystemColor a = SK_ColorBLACK ∧
      GetSystemColor a = GetSystemColor b :=
  fun _ _ => ⟨rfl, rfl⟩

/-- C9: `GetPartSize(InnerSpinButton, state, extra)` returns the size
`(15, 0)` for every state and extra parameters: the fixed non-zero scrollbar
width with zero height. -/
theorem GetPartSize_innerSpinButton_size (state : State) (extra : ExtraParams) :
    GetPartSize kInnerSpinButton state extra = { width := 15, height := 0 } ∧
    GetPartSize kInnerSpinButton state extra =
      { width := kScrollbarWidth, height := 0 } ∧
    (15 : Int) ≠ 0 :=
  ⟨rfl, rfl, by decide⟩

/-- C10: for Checkbox and Radio, the output of `Paint` is identical across
the non-disabled states (Normal, Hovered, Pressed): two calls differing only
in which non-disabled state is passed select the same asset and issue the
same draw call. -/
theorem paint_checkbox_radio_state_independent (dims : ImageId → Int × Int)
    (rect : Rect) (button : ButtonExtraParams) (s1 s2 : State)
    (h1 : s1 ≠ kDisabled) (h2 : s2 ≠ kDisabled) :
    Paint dims kCheckbox s1 rect (.button button) =
      Paint dims kCheckbox s2 rect (.button button) ∧
    Paint dims kRadio s1 rect (.button button) =
      Paint dims kRadio s2 rect (.button button) := by
  cases s1 <;> cases s2 <;>
    first
      | exact absurd rfl h1
      | exact absurd rfl h2
      | exact ⟨rfl, rfl⟩

/-- Witness for C10 at a concrete non-disabled state pair. -/
theorem paint_checkbox_radio_state_independent_witness :
    (kNormal ≠ kDisabled) ∧ (kHovered ≠ kDisabled) ∧
    (Paint (fun _ => (13, 13)) kCheckbox kNormal ⟨0, 0, 20, 20⟩
        (.button ⟨0, false, true, false⟩) =
      Paint (fun _ => (13, 13)) kCheckbox kHovered ⟨0, 0, 20, 20⟩
        (.button ⟨0, false, true, false⟩) ∧
    Paint (fun _ => (13, 13)) kRadio kNormal ⟨0, 0, 20, 20⟩
        (.button ⟨0, false, true, false⟩) =
      Paint (fun _ => (13, 13)) kRadio kHovered ⟨0, 0, 20, 20⟩
        (.button ⟨0, false, true, false⟩)) :=
  ⟨by decide, by decide,
   paint_checkbox_radio_state_independent (fun _ => (13, 13)) ⟨0, 0, 20, 20⟩
     ⟨0, false, true, false⟩ kNormal kHovered (by decide) (by decide)⟩

/-- C5: painting a push button into a rect with width < 5 or height < 5
performs exactly one flat rectangle fill with the background color and
returns immediately: no gradient operation is constructed and no border or
corner highlights are drawn, even when `has_border` is set. -/
theorem paintButton_small_rect_flat_fill (dims : ImageId → Int × Int)
    (state : State) (rect : Rect) (button : ButtonExtraParams)
    (h : rect.width < 5 ∨ rect.height < 5) :
    Paint dims kPushButton state rect (.button button) =
      some [.drawRect rect.x rect.y (rect.x + rect.width) (rect.y + rect.height)
        (.sk button.background_color) .fill] ∧
    ∀ op ∈ PaintButton state rect button, isGradientOp op = false := by
  have hops : PaintButton state rect button =
      [.drawRect rect.x rect.y (rect.x + rect.width) (rect.y + rect.height)
        (.sk button.background_color) .fill] := by
    simp only [PaintButton, Rect.right, Rect.bottom]
    rw [if_pos h]
  refine ⟨?_, ?_⟩
  · show some (PaintButton state rect button) = _
    rw [hops]
  · rw [hops]
    intro op hop
    simp only [List.mem_singleton] at hop
    subst hop
    rfl

/-- Witness for C5 at a concrete 3×7 rect with a border requested. -/
theorem paintButton_small_rect_flat_fill_witness :
    ((3 : Int) < 5 ∨ (7 : Int) < 5) ∧
    (Paint (fun _ => (0, 0)) kPushButton kNormal ⟨0, 0, 3, 7⟩
        (.button ⟨123, true, false, false⟩) =
      some [.drawRect 0 0 3 7 (.sk 123) .fill] ∧
    ∀ op ∈ PaintButton kNormal ⟨0, 0, 3, 7⟩ ⟨123, true, false, false⟩,
      isGradientOp op = false) :=
  ⟨Or.inl (by decide),
   paintButton_small_rect_flat_fill (fun _ => (0, 0)) kNormal ⟨0, 0, 3, 7⟩
     ⟨123, true, false, false⟩ (Or.inl (by decide))⟩

/-- C1 (counterexample to the claim as stated): with `read_only = false`,
`state = Normal` and `spin_up = true` the code paints the top half with state
Normal, not Disabled as the claim predicts — the non-selected half keeps the
incoming state instead of being forced to Disabled. -/
theorem paintInnerSpinButton_claim_cex :
    Paint (fun _ => (0, 0)) kInnerSpinButton kNormal ⟨0, 0, 20, 20⟩
        (.inner_spin ⟨false, true⟩) =
      some [.paintArrowButton ⟨0, 0, 20, 10⟩ kScrollbarUpArrow kNormal,
            .paintArrowButton ⟨0, 10, 20, 10⟩ kScrollbarDownArrow kNormal] ∧
    kNormal ≠ kDisabled := by decide

/-- C1 (amended): `Paint(InnerSpinButton, state, rect, extra)` invokes the
up-arrow routine on the top half-rect and the down-arrow routine on the
bottom half-rect; with `read_only` both halves are Disabled regardless of
`spin_up`; otherwise the half selected by `spin_up` (bottom when
`spin_up = true`, top when `spin_up = false`) is resolved to Normal unless
the incoming state is Disabled, while the other half keeps the incoming
state. -/
theorem paintInnerSpinButton_resolved_states (dims : ImageId → Int × Int)
    (state : State) (rect : Rect) (sb : InnerSpinButtonExtraParams) :
    Paint dims kInnerSpinButton state rect (.inner_spin sb) =
      some [.paintArrowButton ⟨rect.x, rect.y, rect.width, cppDiv rect.height 2⟩
              kScrollbarUpArrow (resolvedNorthState state sb),
            .paintArrowButton
              ⟨rect.x, rect.y + cppDiv rect.height 2, rect.width, cppDiv rect.height 2⟩
              kScrollbarDownArrow (resolvedSouthState state sb)] := by
  rcases sb with ⟨ro, su⟩
  cases ro <;> cases su <;> cases state <;> rfl


/-- C2: `OutlineColor` computes exactly the spec formula:
`SaturateAndBrighten(hsv_foreground, −0.2, diff)` with
`minDiff = clamp((sat_bg + sat_fg) × 1.2, 0.28, 0.5)`,
`diff = clamp(|val_bg − val_fg| / 2, minDiff, 0.5)` negated if and only if
`val_bg + val_fg > 1.0`.  The identity holds for all rational triples, in
particular for components in [0,1]. -/
theorem OutlineColor_eq_spec (hsv_background hsv_foreground : HSV) :
    OutlineColor hsv_background hsv_foreground =
      specOutlineColor hsv_background hsv_foreground := rfl

/-- C3 (counterexample to the claim as stated): at the valid pair
`hsv1 = (0,0,0.1)`, `hsv2 = (0,0,0.9)` the adjusted value saturates at the
clamp bound 1, so the value channel of the result differs from `hsv2.v` by
only 0.1, strictly below the computed `minDiff = 0.28`. -/
theorem outlineColor_effective_diff_cex :
    HSV.Valid ⟨0, 0, 1/10⟩ ∧ HSV.Valid ⟨0, 0, 9/10⟩ ∧
    |(OutlineColor ⟨0, 0, 1/10⟩ ⟨0, 0, 9/10⟩).v - (9/10 : ℚ)| <
      specMinDiff ⟨0, 0, 1/10⟩ ⟨0, 0, 9/10⟩ := by
  refine ⟨by norm_num [HSV.Valid], by norm_num [HSV.Valid], ?_⟩
  norm_num [OutlineColor, SaturateAndBrighten, Clamp, specMinDiff, min_def, max_def,
    abs_of_nonpos, abs_of_nonneg]

/-- C3 (amended): for valid HSV triples the signed adjustment that
`OutlineColor` applies to the foreground value channel satisfies
`minDiff ≤ |adjustment| ≤ 0.5` and is negative exactly when
`val1 + val2 > 1.0`; the value channel of the result is
`clamp(val2 + adjustment, 0, 1)`, whose distance from `val2` is therefore at
most 0.5 but can drop below `minDiff` when the clamp saturates. -/
theorem outlineColor_adjustment_bounds (hsv1 hsv2 : HSV)
    (h1 : hsv1.Valid) (h2 : hsv2.Valid) :
    specMinDiff hsv1 hsv2 ≤ |specAdjustment hsv1 hsv2| ∧
    |specAdjustment hsv1 hsv2| ≤ 1/2 ∧
    (specAdjustment hsv1 hsv2 < 0 ↔ 1 < hsv1.v + hsv2.v) ∧
    (OutlineColor hsv1 hsv2).v = Clamp (hsv2.v + specAdjustment hsv1 hsv2) 0 1 ∧
    |(OutlineColor hsv1 hsv2).v - hsv2.v| ≤ 1/2 := by
  obtain ⟨-, -, -, -, h2v0, h2v1⟩ := h2
  have hmd1 : (28/100 : ℚ) ≤ specMinDiff hsv1 hsv2 := by
    simp only [specMinDiff, Clamp]
    exact le_min (le_max_right _ _) (by norm_num)
  have hmd2 : specMinDiff hsv1 hsv2 ≤ 1/2 := by
    simp only [specMinDiff, Clamp]
    exact min_le_right _ _
  have hC1 : specMinDiff hsv1 hsv2 ≤
      Clamp (|hsv1.v - hsv2.v| / 2) (specMinDiff hsv1 hsv2) (1/2) := by
    simp only [Clamp]
    exact le_min (le_max_right _ _) hmd2
  have hC2 : Clamp (|hsv1.v - hsv2.v| / 2) (specMinDiff hsv1 hsv2) (1/2) ≤ 1/2 := by
    simp only [Clamp]
    exact min_le_right _ _
  have hCpos : 0 < Clamp (|hsv1.v - hsv2.v| / 2) (specMinDiff hsv1 hsv2) (1/2) :=
    lt_of_lt_of_le (by norm_num) (le_trans hmd1 hC1)
  have hadj : specAdjustment hsv1 hsv2 =
      if 1 < hsv1.v + hsv2.v then
        -(Clamp (|hsv1.v - hsv2.v| / 2) (specMinDiff hsv1 hsv2) (1/2))
      else Clamp (|hsv1.v - hsv2.v| / 2) (specMinDiff hsv1 hsv2) (1/2) := rfl
  have habs : |specAdjustment hsv1 hsv2| =
      Clamp (|hsv1.v - hsv2.v| / 2) (specMinDiff hsv1 hsv2) (1/2) := by
    rw [hadj]
    by_cases hc : 1 < hsv1.v + hsv2.v
    · rw [if_pos hc, abs_neg]
      exact abs_of_pos hCpos
    · rw [if_neg hc]
      exact abs_of_pos hCpos
  have hsign : specAdjustment hsv1 hsv2 < 0 ↔ 1 < hsv1.v + hsv2.v := by
    rw [hadj]
    by_cases hc : 1 < hsv1.v + hsv2.v
    · rw [if_pos hc]
      exact iff_of_true (neg_lt_zero.mpr hCpos) hc
    · rw [if_neg hc]
      exact iff_of_false (not_lt.mpr hCpos.le) hc
  have hv : (OutlineColor hsv1 hsv2).v =
      Clamp (hsv2.v + specAdjustment hsv1 hsv2) 0 1 := rfl
  have hd_le : |specAdjustment hsv1 hsv2| ≤ 1/2 := by
    rw [habs]
    exact hC2
  have hd_bounds := abs_le.mp hd_le
  have hlow : hsv2.v - 1/2 ≤ Clamp (hsv2.v + specAdjustment hsv1 hsv2) 0 1 := by
    simp only [Clamp]
    refine le_min (le_trans ?_ (le_max_left _ _)) (by linarith)
    linarith [hd_bounds.1]
  have hhigh : Clamp (hsv2.v + specAdjustment hsv1 hsv2) 0 1 ≤ hsv2.v + 1/2 := by
    simp only [Clamp]
    exact le_trans (min_le_left _ _) (max_le (by linarith [hd_bounds.2]) (by linarith))
  refine ⟨?_, hd_le, hsign, hv, ?_⟩
  · rw [habs]
    exact hC1
  · rw [hv, abs_le]
    constructor <;> linarith

/-- Witness for the amended C3 at the valid pair `(0,0,0)`, `(0,0,1)`. -/
theorem outlineColor_adjustment_bounds_witness :
    HSV.Valid ⟨0, 0, 0⟩ ∧ HSV.Valid ⟨0, 0, 1⟩ ∧
    (specMinDiff ⟨0, 0, 0⟩ ⟨0, 0, 1⟩ ≤ |specAdjustment ⟨0, 0, 0⟩ ⟨0, 0, 1⟩| ∧
     |specAdjustment ⟨0, 0, 0⟩ ⟨0, 0, 1⟩| ≤ 1/2 ∧
     (specAdjustment ⟨0, 0, 0⟩ ⟨0, 0, 1⟩ < 0 ↔
       1 < (HSV.mk 0 0 0).v + (HSV.mk 0 0 1).v) ∧
     (OutlineColor ⟨0, 0, 0⟩ ⟨0, 0, 1⟩).v =
       Clamp ((HSV.mk 0 0 1).v + specAdjustment ⟨0, 0, 0⟩ ⟨0, 0, 1⟩) 0 1 ∧
     |(OutlineColor ⟨0, 0, 0⟩ ⟨0, 0, 1⟩).v - (HSV.mk 0 0 1).v| ≤ 1/2) :=
  ⟨by norm_num [HSV.Valid], by norm_num [HSV.Valid],
   outlineColor_adjustment_bounds ⟨0, 0, 0⟩ ⟨0, 0, 1⟩
     (by norm_num [HSV.Valid]) (by norm_num [HSV.Valid])⟩

/-- C4 (counterexample to the claim as stated): for a plain (non-listbox)
text input the quad drawn for the TOP edge uses the dark color `#9a9a9a`,
not the light color `#eeeeee` the claim assigns to the top edge. -/
theorem paintTextField_claim_cex :
    (PaintTextField kNormal ⟨0, 0, 10, 10⟩ ⟨0, false, false⟩)[1]? =
      some (.drawPath [(0, 0), (2, 2), (8, 2), (10, 0)]
        (.sk (SkColorSetRGB 0x9a 0x9a 0x9a)) .fill) ∧
    SkColorSetRGB 0x9a 0x9a 0x9a ≠ SkColorSetRGB 0xee 0xee 0xee := by decide

/-- C4 (amended): for a non-text-area text field the code draws, after the
background fill, four 4-point trapezoidal edge quads in which the TOP and
LEFT quads use the dark color and the BOTTOM and RIGHT quads use the light
color (the light/dark pair being the listbox palette when `is_listbox`),
with border thickness 1 when `is_listbox` and 2 otherwise. -/
theorem paintTextField_bevel_quads (dims : ImageId → Int × Int) (state : State)
    (rect : Rect) (text : TextFieldExtraParams) (h : text.is_text_area = false) :
    Paint dims kTextField state rect (.text_field text) = some
      [.drawRect rect.x rect.y (rect.right - 1) (rect.bottom - 1)
         (.sk text.background_color) .fill,
       .drawPath (edgeQuadTop rect (if text.is_listbox then 1 else 2))
         (.sk (if text.is_listbox then SkColorSetRGB 0x2c 0x2c 0x2c
               else SkColorSetRGB 0x9a 0x9a 0x9a)) .fill,
       .drawPath (edgeQuadBottom rect (if text.is_listbox then 1 else 2))
         (.sk (if text.is_listbox then SkColorSetRGB 0x80 0x80 0x80
               else SkColorSetRGB 0xee 0xee 0xee)) .fill,
       .drawPath (edgeQuadLeft rect (if text.is_listbox then 1 else 2))
         (.sk (if text.is_listbox then SkColorSetRGB 0x2c 0x2c 0x2c
               else SkColorSetRGB 0x9a 0x9a 0x9a)) .fill,
       .drawPath (edgeQuadRight rect (if text.is_listbox then 1 else 2))
         (.sk (if text.is_listbox then SkColorSetRGB 0x80 0x80 0x80
               else SkColorSetRGB 0xee 0xee 0xee)) .fill] := by
  rcases text with ⟨bg, ta, lb⟩
  cases ta
  · cases lb <;> rfl
  · simp at h

/-- Witness for the amended C4 at a concrete listbox text field. -/
theorem paintTextField_bevel_quads_witness :
    (TextFieldExtraParams.mk 5 false true).is_text_area = false ∧
    Paint (fun _ => (0, 0)) kTextField kNormal ⟨0, 0, 10, 10⟩
        (.text_field ⟨5, false, true⟩) = some
      [.drawRect 0 0 9 9 (.sk 5) .fill,
       .drawPath (edgeQuadTop ⟨0, 0, 10, 10⟩ 1) (.sk (SkColorSetRGB 0x2c 0x2c 0x2c)) .fill,
       .drawPath (edgeQuadBottom ⟨0, 0, 10, 10⟩ 1) (.sk (SkColorSetRGB 0x80 0x80 0x80)) .fill,
       .drawPath (edgeQuadLeft ⟨0, 0, 10, 10⟩ 1) (.sk (SkColorSetRGB 0x2c 0x2c 0x2c)) .fill,
       .drawPath (edgeQuadRight ⟨0, 0, 10, 10⟩ 1) (.sk (SkColorSetRGB 0x80 0x80 0x80)) .fill] :=
  ⟨rfl, paintTextField_bevel_quads (fun _ => (0, 0)) kNormal ⟨0, 0, 10, 10⟩
    ⟨5, false, true⟩ rfl⟩


/-- C6 (counterexample to the claim as stated): a 10×10 rect satisfies the
claim's "at least 10×10" condition, yet the code (which tests strictly
greater than 10) draws no ticks there. -/
theorem paintSliderThumb_ticks_cex :
    ((10 : Int) ≤ 10 ∧ (10 : Int) ≤ 10) ∧
    ¬ (sliderThumbTicks ⟨0, 0, 10, 10⟩ <:+
        PaintSliderThumb kNormal ⟨0, 0, 10, 10⟩ ⟨false, false⟩) := by decide

/-- C6 (amended): painting the slider thumb draws the three decorative
horizontal ticks centered on the rect midpoint if and only if the rect is
strictly greater than 10 in both dimensions; in particular a 12×12 rect
draws them and a 9×9 (or 10×10) rect draws none. -/
theorem paintSliderThumb_ticks_iff (dims : ImageId → Int × Int) (state : State)
    (rect : Rect) (slider : SliderExtraParams) :
    Paint dims kSliderThumb state rect (.slider slider) =
      some (PaintSliderThumb state rect slider) ∧
    (sliderThumbTicks rect <:+ PaintSliderThumb state rect slider ↔
      10 < rect.height ∧ 10 < rect.width) := by
  refine ⟨rfl, ?_, ?_⟩
  · rintro ⟨pre, hp⟩
    by_contra hcond
    simp only [PaintSliderThumb, DrawBox, DrawHorizLine, DrawVertLine,
      sliderThumbTicks] at hp
    rw [if_neg hcond] at hp
    simp only [List.append_nil, List.cons_append, List.nil_append] at hp
    have hlast := congrArg List.getLast? hp
    rw [List.getLast?_append_cons] at hlast
    simp only [List.getLast?_cons_cons, List.getLast?_singleton] at hlast
    rw [Option.some_inj] at hlast
    injection hlast with e1 e2 e3 e4 e5
    linarith [e1, e3]
  · intro hcond
    simp only [PaintSliderThumb, DrawBox, DrawHorizLine, DrawVertLine,
      sliderThumbTicks]
    rw [if_pos hcond]
    exact List.suffix_append _ _


/-- Concrete 4×4 asset-size assignment used as a witness input. -/
def demoDims : ImageId → Int × Int := fun _ => (4, 4)

/-- C7: painting the progress bar always tiles the background bar image
(uniform vertical scale `rect.height / bar_image.height`, horizontal tile
width derived from that scale) and draws both border-cap images at that same
scale, flush against the rect's left and right edges; a draw call for the
value-fill image into the value sub-rectangle is issued if and only if
`value_rect_width` is non-zero, with the same scale rule as the background. -/
theorem paintProgressBar_spec (dims : ImageId → Int × Int) (state : State)
    (rect : Rect) (pb : ProgressBarExtraParams)
    (hbar : 0 < (dims ImageId.IDR_PROGRESS_BAR).2) :
    Paint dims kProgressBar state rect (.progress_bar pb) =
      some (PaintProgressBar dims state rect pb) ∧
    ((∃ op ∈ PaintProgressBar dims state rect pb,
        opImage op = some ImageId.IDR_PROGRESS_VALUE) ↔ pb.value_rect_width ≠ 0) ∧
    DrawOp.drawTiledImage ImageId.IDR_PROGRESS_BAR 0 0
        ((static_cast_int (((dims ImageId.IDR_PROGRESS_BAR).1 : ℚ) * ((rect.height : ℚ) / ((dims ImageId.IDR_PROGRESS_BAR).2 : ℚ))) : ℚ) /
          ((dims ImageId.IDR_PROGRESS_BAR).1 : ℚ))
        ((rect.height : ℚ) / ((dims ImageId.IDR_PROGRESS_BAR).2 : ℚ)) rect.x rect.y rect.width rect.height ∈ PaintProgressBar dims state rect pb ∧
    DrawOp.drawImage ImageId.IDR_PROGRESS_BORDER_LEFT 0 0
        (dims ImageId.IDR_PROGRESS_BORDER_LEFT).1
        (dims ImageId.IDR_PROGRESS_BORDER_LEFT).2 rect.x rect.y
        (static_cast_int (((dims ImageId.IDR_PROGRESS_BORDER_LEFT).1 : ℚ) * ((rect.height : ℚ) / ((dims ImageId.IDR_PROGRESS_BAR).2 : ℚ))))
        rect.height ∈ PaintProgressBar dims state rect pb ∧
    DrawOp.drawImage ImageId.IDR_PROGRESS_BORDER_RIGHT 0 0
        (dims ImageId.IDR_PROGRESS_BORDER_RIGHT).1
        (dims ImageId.IDR_PROGRESS_BORDER_RIGHT).2
        (rect.right -
          static_cast_int (((dims ImageId.IDR_PROGRESS_BORDER_RIGHT).1 : ℚ) * ((rect.height : ℚ) / ((dims ImageId.IDR_PROGRESS_BAR).2 : ℚ))))
        rect.y
        (static_cast_int (((dims ImageId.IDR_PROGRESS_BORDER_RIGHT).1 : ℚ) * ((rect.height : ℚ) / ((dims ImageId.IDR_PROGRESS_BAR).2 : ℚ))))
        rect.height ∈ PaintProgressBar dims state rect pb ∧
    (pb.value_rect_width ≠ 0 →
      DrawOp.drawTiledImage ImageId.IDR_PROGRESS_VALUE 0 0
        ((static_cast_int (((dims ImageId.IDR_PROGRESS_VALUE).1 : ℚ) * ((rect.height : ℚ) / ((dims ImageId.IDR_PROGRESS_BAR).2 : ℚ))) : ℚ) /
          ((dims ImageId.IDR_PROGRESS_VALUE).1 : ℚ))
        ((rect.height : ℚ) / ((dims ImageId.IDR_PROGRESS_BAR).2 : ℚ)) pb.value_rect_x pb.value_rect_y pb.value_rect_width pb.value_rect_height ∈ PaintProgressBar dims state rect pb) := by
  by_cases hw : pb.value_rect_width = 0
  · refine ⟨rfl, ?_, ?_, ?_, ?_, ?_⟩ <;>
      simp [PaintProgressBar, hw, opImage]
  · refine ⟨rfl, ?_, ?_, ?_, ?_, ?_⟩ <;>
      simp [PaintProgressBar, hw, opImage]

/-- Witness for C7 at the concrete 4×4 assets, an 8×8 rect and a non-zero
value width. -/
theorem paintProgressBar_spec_witness :
    0 < (demoDims ImageId.IDR_PROGRESS_BAR).2 ∧
    (    Paint demoDims kProgressBar kNormal ⟨0, 0, 8, 8⟩ (.progress_bar ⟨1, 1, 5, 6⟩) =
      some (PaintProgressBar demoDims kNormal ⟨0, 0, 8, 8⟩ ⟨1, 1, 5, 6⟩) ∧
    ((∃ op ∈ PaintProgressBar demoDims kNormal ⟨0, 0, 8, 8⟩ ⟨1, 1, 5, 6⟩,
        opImage op = some ImageId.IDR_PROGRESS_VALUE) ↔ (5 : Int) ≠ 0) ∧
    DrawOp.drawTiledImage ImageId.IDR_PROGRESS_BAR 0 0
        ((static_cast_int (((demoDims ImageId.IDR_PROGRESS_BAR).1 : ℚ) * (((8 : Int) : ℚ) / ((demoDims ImageId.IDR_PROGRESS_BAR).2 : ℚ))) : ℚ) /
          ((demoDims ImageId.IDR_PROGRESS_BAR).1 : ℚ))
        (((8 : Int) : ℚ) / ((demoDims ImageId.IDR_PROGRESS_BAR).2 : ℚ)) (0 : Int) (0 : Int) (8 : Int) (8 : Int) ∈ PaintProgressBar demoDims kNormal ⟨0, 0, 8, 8⟩ ⟨1, 1, 5, 6⟩ ∧
    DrawOp.drawImage ImageId.IDR_PROGRESS_BORDER_LEFT 0 0
        (demoDims ImageId.IDR_PROGRESS_BORDER_LEFT).1
        (demoDims ImageId.IDR_PROGRESS_BORDER_LEFT).2 (0 : Int) (0 : Int)
        (static_cast_int (((demoDims ImageId.IDR_PROGRESS_BORDER_LEFT).1 : ℚ) * (((8 : Int) : ℚ) / ((demoDims ImageId.IDR_PROGRESS_BAR).2 : ℚ))))
        (8 : Int) ∈ PaintProgressBar demoDims kNormal ⟨0, 0, 8, 8⟩ ⟨1, 1, 5, 6⟩ ∧
    DrawOp.drawImage ImageId.IDR_PROGRESS_BORDER_RIGHT 0 0
        (demoDims ImageId.IDR_PROGRESS_BORDER_RIGHT).1
        (demoDims ImageId.IDR_PROGRESS_BORDER_RIGHT).2
        ((8 : Int) -
          static_cast_int (((demoDims ImageId.IDR_PROGRESS_BORDER_RIGHT).1 : ℚ) * (((8 : Int) : ℚ) / ((demoDims ImageId.IDR_PROGRESS_BAR).2 : ℚ))))
        (0 : Int)
        (static_cast_int (((demoDims ImageId.IDR_PROGRESS_BORDER_RIGHT).1 : ℚ) * (((8 : Int) : ℚ) / ((demoDims ImageId.IDR_PROGRESS_BAR).2 : ℚ))))
        (8 : Int) ∈ PaintProgressBar demoDims kNormal ⟨0, 0, 8, 8⟩ ⟨1, 1, 5, 6⟩ ∧
    ((5 : Int) ≠ 0 →
      DrawOp.drawTiledImage ImageId.IDR_PROGRESS_VALUE 0 0
        ((static_cast_int (((demoDims ImageId.IDR_PROGRESS_VALUE).1 : ℚ) * (((8 : Int) : ℚ) / ((demoDims ImageId.IDR_PROGRESS_BAR).2 : ℚ))) : ℚ) /
          ((demoDims ImageId.IDR_PROGRESS_VALUE).1 : ℚ))
        (((8 : Int) : ℚ) / ((demoDims ImageId.IDR_PROGRESS_BAR).2 : ℚ)) (1 : Int) (1 : Int) (5 : Int) (6 : Int) ∈ PaintProgressBar demoDims kNormal ⟨0, 0, 8, 8⟩ ⟨1, 1, 5, 6⟩)) :=
  ⟨by norm_num [demoDims],
   paintProgressBar_spec demoDims kNormal ⟨0, 0, 8, 8⟩ ⟨1, 1, 5, 6⟩
     (by norm_num [demoDims])⟩

end ui
